import Mathlib

/-!
A shallow embedding of the BiblioDrift library-management core
(`LibraryManager` and the reading-progress slider handler), together with
proofs of the behavioural properties stated in the specification.

Modelling conventions:
* `localStorage` contents for the `bibliodrift_library` key are modelled by
  `StoredData`, which distinguishes an absent key, text that is not valid
  JSON (on which `JSON.parse` throws), valid JSON denoting a falsy value,
  valid JSON denoting a truthy non-library value, and valid JSON denoting a
  proper three-shelf library object.
* The logged-in user (`bibliodrift_user` key, already parsed) is modelled as
  `Option Nat` carrying the user id.
* Asynchronous remote calls are modelled by passing their eventual outcome
  as an explicit argument (`CreateResult` for the POST issued by `addBook`,
  `FetchResult` for the GET issued by `syncWithBackend`); the function then
  computes the state after both the synchronous local phase and the
  fire-and-forget remote continuation have run.
* A thrown JavaScript exception is modelled by an `Except.error` (for
  `addBook`, whose `this.library[shelf].push` raises a `TypeError` on an
  unrecognized shelf name) or by a dedicated outcome constructor (for the
  slider handler and hydration); the error value carries the state at the
  moment of the throw, which is unchanged because the throw happens before
  any mutation.
-/

namespace BiblioDrift

/-- A book entry as it lives in a shelf array: `id` is the Google Books
(external) identifier, `db_id` the backend database id attached once the
entry is persisted remotely, `progress` the reading-progress annotation. -/
structure Book where
  id : String
  db_id : Option Nat := none
  title : String := ""
  authors : List String := []
  thumbnail : String := ""
  progress : Option Int := none
deriving Repr, DecidableEq

/-- The three recognized shelf keys of the library object
`{ current: [], want: [], finished: [] }`. -/
inductive ShelfName where
  | current
  | want
  | finished
deriving Repr, DecidableEq

/-- JavaScript property lookup `library[shelf]` on the three-key library
object: `some` for the three recognized keys, `none` (i.e. `undefined`)
otherwise. -/
def shelfOf? (s : String) : Option ShelfName :=
  if s = "current" then some .current
  else if s = "want" then some .want
  else if s = "finished" then some .finished
  else none

/-- The canonical string key of a shelf. -/
def shelfKey : ShelfName → String
  | .current => "current"
  | .want => "want"
  | .finished => "finished"

/-- The in-memory shelf state `this.library`: three ordered book arrays.
JavaScript `for...in` enumeration over this object yields the keys in
insertion order `current`, `want`, `finished`; all iteration below follows
that order. -/
structure Library where
  current : List Book := []
  want : List Book := []
  finished : List Book := []
deriving Repr, DecidableEq

/-- The freshly initialized library `{ current: [], want: [], finished: [] }`. -/
def emptyLibrary : Library := {}

/-- Read one shelf array. -/
def Library.get (lib : Library) : ShelfName → List Book
  | .current => lib.current
  | .want => lib.want
  | .finished => lib.finished

/-- Replace one shelf array. -/
def Library.set (lib : Library) (sh : ShelfName) (l : List Book) : Library :=
  match sh with
  | .current => { lib with current := l }
  | .want => { lib with want := l }
  | .finished => { lib with finished := l }

/-- `findBook(id)`: scan every shelf (in `for...in` order) and report whether
some entry has this external id. -/
def findBook (lib : Library) (id : String) : Bool :=
  lib.current.any (fun b => b.id == id) ||
  lib.want.any (fun b => b.id == id) ||
  lib.finished.any (fun b => b.id == id)

/-- `findBookInShelf(id)`: first shelf (in `for...in` order) whose `find`
returns an entry with this id, together with that entry. -/
def findBookInShelf (lib : Library) (id : String) : Option (ShelfName × Book) :=
  match lib.current.find? (fun b => b.id == id) with
  | some b => some (.current, b)
  | none =>
    match lib.want.find? (fun b => b.id == id) with
    | some b => some (.want, b)
    | none =>
      match lib.finished.find? (fun b => b.id == id) with
      | some b => some (.finished, b)
      | none => none

/-- The contents of the `bibliodrift_library` key in `localStorage`, as seen
through `JSON.parse(localStorage.getItem(key))`. -/
inductive StoredData where
  /-- The key is missing: `getItem` returns `null` and `JSON.parse(null)`
  yields the falsy value `null`. -/
  | absent
  /-- The key holds text that is not valid JSON: `JSON.parse` throws. -/
  | malformed
  /-- The key holds valid JSON denoting a falsy value
  (`null`, `false`, `0`, `""`). -/
  | falsy
  /-- The key holds valid JSON denoting a truthy value that is not a
  three-shelf library object. -/
  | otherTruthy
  /-- The key holds the serialized form of a three-shelf library object. -/
  | parsedLib (lib : Library)
deriving Repr, DecidableEq

/-- Outcome of the constructor expression
`JSON.parse(localStorage.getItem(this.storageKey)) || { current: [], want: [], finished: [] }`. -/
inductive HydrateResult where
  /-- `JSON.parse` threw a `SyntaxError`, which propagates out of the
  constructor. -/
  | throws
  /-- `this.library` is set to this three-shelf library object. -/
  | ok (lib : Library)
  /-- `this.library` is set to a truthy value that is not a library object
  (the `||` default does not replace truthy values). -/
  | okNonLibrary
deriving Repr, DecidableEq

/-- Hydration as performed by the `LibraryManager` constructor. -/
def hydrate : StoredData → HydrateResult
  | .absent => .ok emptyLibrary
  | .malformed => .throws
  | .falsy => .ok emptyLibrary
  | .otherTruthy => .okNonLibrary
  | .parsedLib lib => .ok lib

/-- The state a `LibraryManager` operates on: the in-memory library, the
persisted `bibliodrift_library` key, and the parsed `bibliodrift_user`
session record (carrying the user id) if present. -/
structure MgrState where
  library : Library
  stored : StoredData
  user : Option Nat := none
deriving Repr, DecidableEq

/-- `saveLocally()`: serialize `this.library` into the storage key. -/
def saveLocally (st : MgrState) : MgrState :=
  { st with stored := .parsedLib st.library }

/-- Eventual outcome of the fire-and-forget `POST /library` issued by
`addBook`: either failure (network error or non-2xx response, both of which
leave the entry local-only) or success carrying the backend item id. -/
inductive CreateResult where
  | fail
  | ok (dbId : Nat)
deriving Repr, DecidableEq

/-- `enrichedBook.db_id = data.item.id` on the object that was pushed last
onto the shelf array (the pushed object is aliased, so the update lands on
the final element). -/
def setDbIdLast (dbId : Nat) : List Book → List Book
  | [] => []
  | [b] => [{ b with db_id := some dbId }]
  | b :: rest => b :: setDbIdLast dbId rest

/-- The `enrichedBook` spread: copy the entry, setting `progress` to `0`
when the target shelf is `current` and to `null` otherwise. -/
def enrich (book : Book) (shelf : String) : Book :=
  { book with progress := if shelf == "current" then some 0 else none }

/-- `addBook(book, shelf)` with the eventual outcome of its remote create
call supplied as `remote`.  Returns `.error st` when
`this.library[shelf].push` throws a `TypeError` (unrecognized shelf name;
the state is unchanged at that point), otherwise `.ok (st', issued)` where
`issued` records whether a remote create request was sent. -/
def addBook (st : MgrState) (book : Book) (shelf : String) (remote : CreateResult) :
    Except MgrState (MgrState × Bool) :=
  if findBook st.library book.id then .ok (st, false)
  else
    let enriched : Book := enrich book shelf
    match shelfOf? shelf with
    | none => .error st
    | some sh =>
      let st1 := saveLocally { st with library := st.library.set sh (st.library.get sh ++ [enriched]) }
      match st1.user with
      | none => .ok (st1, false)
      | some _ =>
        match remote with
        | .fail => .ok (st1, true)
        | .ok dbId =>
          .ok (saveLocally { st1 with
            library := st1.library.set sh (setDbIdLast dbId (st1.library.get sh)) }, true)

/-- The manager state after an `addBook` call, whether it returned normally
or its push threw (a throw inside the `async` function only rejects the
returned promise; the state at the throw is what the caller observes). -/
def addPost (st : MgrState) (book : Book) (shelf : String) (remote : CreateResult) : MgrState :=
  match addBook st book shelf remote with
  | .ok (st1, _) => st1
  | .error st1 => st1

/-- `removeBook(id)`: locate the entry via `findBookInShelf`, filter it out
of that shelf, persist, and return `true`; return `false` untouched when the
id is nowhere.  The fire-and-forget remote DELETE never alters local state,
so no outcome argument is needed. -/
def removeBook (st : MgrState) (id : String) : MgrState × Bool :=
  match findBookInShelf st.library id with
  | none => (st, false)
  | some (sh, _) =>
    (saveLocally { st with
      library := st.library.set sh ((st.library.get sh).filter (fun b => b.id != id)) }, true)

/-- One record of the `GET /library/{userId}` response body. -/
structure RemoteItem where
  id : Nat
  google_books_id : String
  title : String := ""
  authors : Option String := none
  thumbnail : String := ""
  shelf_type : String
deriving Repr, DecidableEq

/-- Reconstruction of a renderer-shaped book object from one remote record
(`syncWithBackend`'s `forEach` body): `authors` is comma-split when truthy,
no `progress` field is set. -/
def itemToBook (item : RemoteItem) : Book :=
  { id := item.google_books_id
    db_id := some item.id
    title := item.title
    authors :=
      match item.authors with
      | some s => if s == "" then [] else s.splitOn ", "
      | none => []
    thumbnail := item.thumbnail
    progress := none }

/-- One iteration of `syncWithBackend`'s `forEach`: push the reconstructed
book onto the `backendLibrary` array named by `shelf_type` if such an array
exists (the arrays are truthy even when empty); skip the record otherwise. -/
def syncStep (acc : Library) (item : RemoteItem) : Library :=
  match shelfOf? item.shelf_type with
  | some sh => acc.set sh (acc.get sh ++ [itemToBook item])
  | none => acc

/-- Build the fresh `backendLibrary` from the remote list: each record whose
`shelf_type` names one of the three arrays is pushed there; records with an
unrecognized `shelf_type` are skipped. -/
def buildBackendLibrary (items : List RemoteItem) : Library :=
  items.foldl syncStep emptyLibrary

/-- Eventual outcome of the `GET /library/{userId}` fetch: `failed` covers
both a transport error (the promise rejects, caught by the surrounding
`try`) and a non-2xx response (`res.ok` false); `ok` carries the parsed
`data.library` list. -/
inductive FetchResult where
  | failed
  | ok (items : List RemoteItem)
deriving Repr, DecidableEq

/-- `syncWithBackend()`: no-op without a session; on a successful fetch with
a non-empty raw list, replace the library wholesale with the rebuilt shelves
and persist; otherwise leave everything untouched.  All failure paths are
swallowed by the surrounding `try`/`catch`, so the function is total and
never surfaces an error. -/
def syncWithBackend (st : MgrState) (fetch : FetchResult) : MgrState :=
  match st.user with
  | none => st
  | some _ =>
    match fetch with
    | .failed => st
    | .ok items =>
      if items.length > 0 then
        saveLocally { st with library := buildBackendLibrary items }
      else st

/-- The progress slider markup is emitted by `createBookElement(bookData,
shelf)` only when the shelf argument is the string `current` (the
in-progress shelf); cards rendered with any other shelf value (including the
`null` default) carry no slider. -/
def rendersProgressSlider (shelf : Option String) : Bool :=
  shelf == some "current"

/-- Clamping performed by the DOM on `<input type="range" min="0"
max="100">`: the element's `value` (what the input handler reads from
`e.target.value`) is always forced into `[0, 100]`. -/
def rangeClamp (v : Int) : Int :=
  max 0 (min 100 v)

/-- `lib[shelfKey].find(b => b.id === id)` followed by `book.progress =
value`: replace the progress of the first entry with this id. -/
def setFirstProgress (id : String) (v : Int) : List Book → List Book
  | [] => []
  | b :: rest =>
    if b.id == id then { b with progress := some v } :: rest
    else b :: setFirstProgress id v rest

/-- The slider handler's `for...in` loop with `break`: the first shelf (in
key order) containing the id has its first matching entry's progress
replaced; the loop mutates nothing when the id is nowhere. -/
def setProgressFirstShelf (lib : Library) (id : String) (v : Int) : Library :=
  if lib.current.any (fun b => b.id == id) then
    { lib with current := setFirstProgress id v lib.current }
  else if lib.want.any (fun b => b.id == id) then
    { lib with want := setFirstProgress id v lib.want }
  else if lib.finished.any (fun b => b.id == id) then
    { lib with finished := setFirstProgress id v lib.finished }
  else lib

/-- Outcome of one firing of the progress-slider `input` handler. -/
inductive SliderOutcome where
  /-- `JSON.parse` threw on the stored text. -/
  | throws
  /-- Normal path: the parsed library was updated, assigned to
  `this.libraryManager.library`, and written back to storage. -/
  | updated (st : MgrState)
  /-- The stored text parsed to a non-library value: the `for...in` loop ran
  zero iterations, the manager's library field now holds that value, and its
  serialization was written back. -/
  | corrupted (storedAfter : StoredData)
deriving Repr, DecidableEq

/-- The progress-slider `input` handler: re-reads the library from storage,
updates the first entry with this id to the (DOM-clamped) slider value, and
writes the result both into the manager and back to storage. -/
def sliderInput (st : MgrState) (id : String) (raw : Int) : SliderOutcome :=
  let value := rangeClamp raw
  match st.stored with
  | .malformed => .throws
  | .parsedLib lib =>
    let lib2 := setProgressFirstShelf lib id value
    .updated { st with library := lib2, stored := .parsedLib lib2 }
  | .absent => .corrupted .falsy
  | .falsy => .corrupted .falsy
  | .otherTruthy => .corrupted .otherTruthy

/-- All external ids across the three shelves, in shelf-scan order. -/
def allIds (lib : Library) : List String :=
  (lib.current ++ lib.want ++ lib.finished).map (fun b => b.id)

/-- The global uniqueness invariant: no external id appears twice across the
whole shelf state. -/
def UniqueIds (lib : Library) : Prop :=
  (allIds lib).Nodup

instance (lib : Library) : Decidable (UniqueIds lib) := by
  unfold UniqueIds
  infer_instance

/-- The local store is an exact projection of the in-memory library. -/
def StoreInv (st : MgrState) : Prop :=
  st.stored = .parsedLib st.library

instance (st : MgrState) : Decidable (StoreInv st) := by
  unfold StoreInv
  infer_instance

/-- One `addBook` call of a call sequence. -/
structure AddCmd where
  book : Book
  shelf : String
  remote : CreateResult
deriving Repr, DecidableEq

/-- Run a sequence of `addBook` calls, threading the state. -/
def runAdds (st : MgrState) : List AddCmd → MgrState
  | [] => st
  | c :: cs => runAdds (addPost st c.book c.shelf c.remote) cs

/-! ### Concrete fixtures used by witnesses and counterexamples -/

/-- A sample book entry. -/
def wBook1 : Book := { id := "b1" }

/-- A second sample book entry. -/
def wBook2 : Book := { id := "b2" }

/-- A fresh manager state: empty shelves, no stored data, no session. -/
def wState0 : MgrState := { library := emptyLibrary, stored := .absent, user := none }

/-- A library holding `wBook1` on the `current` shelf. -/
def wLibB1 : Library := { current := [wBook1] }

/-- A consistent manager state holding `wBook1`, no session. -/
def wStateB1 : MgrState := { library := wLibB1, stored := .parsedLib wLibB1, user := none }

/-- The same state with a logged-in session. -/
def wStateB1U : MgrState := { library := wLibB1, stored := .parsedLib wLibB1, user := some 7 }

/-- A three-call `addBook` sequence (second call recognized shelves only). -/
def wCmds : List AddCmd :=
  [⟨wBook1, "current", .fail⟩, ⟨wBook2, "want", .fail⟩, ⟨wBook1, "finished", .fail⟩]

/-- Two recognized remote records with distinct external ids. -/
def wItems : List RemoteItem :=
  [{ id := 1, google_books_id := "g1", shelf_type := "current" },
   { id := 2, google_books_id := "g2", shelf_type := "want" }]

/-- A remote record for external id `b1` on shelf `current`. -/
def dupA : RemoteItem := { id := 1, google_books_id := "b1", shelf_type := "current" }

/-- A second remote record for the same external id `b1`. -/
def dupB : RemoteItem := { id := 2, google_books_id := "b1", shelf_type := "current" }

/-- A logged-in state with empty local shelves. -/
def dupState : MgrState := { library := emptyLibrary, stored := .absent, user := some 7 }

/-! ### Helper lemmas -/

theorem findBook_eq_true_iff {lib : Library} {x : String} :
    findBook lib x = true ↔ x ∈ allIds lib := by
  simp only [findBook, allIds, Bool.or_eq_true, List.any_eq_true, beq_iff_eq,
    List.mem_map, List.mem_append]
  aesop

theorem not_mem_allIds_of_findBook_eq_false {lib : Library} {x : String}
    (h : findBook lib x = false) : x ∉ allIds lib := by
  intro hx
  rw [← findBook_eq_true_iff] at hx
  rw [h] at hx
  cases hx

theorem nodup_insert_middle {α : Type _} {l₁ l₂ : List α} {x : α}
    (h : (l₁ ++ l₂).Nodup) (hx : x ∉ l₁ ++ l₂) : (l₁ ++ x :: l₂).Nodup :=
  List.nodup_middle.mpr (List.nodup_cons.mpr ⟨hx, h⟩)

theorem nodup_map_insert {α β : Type _} (f : α → β) (l₁ l₂ : List α) (a : α)
    (h : (List.map f (l₁ ++ l₂)).Nodup) (hx : f a ∉ List.map f (l₁ ++ l₂)) :
    (List.map f (l₁ ++ a :: l₂)).Nodup := by
  rw [List.map_append] at h hx
  rw [List.map_append, List.map_cons]
  exact nodup_insert_middle h hx

theorem unique_push {lib : Library} {sh : ShelfName} {b : Book}
    (h1 : UniqueIds lib) (h2 : findBook lib b.id = false) :
    UniqueIds (lib.set sh (lib.get sh ++ [b])) := by
  have hx := not_mem_allIds_of_findBook_eq_false h2
  unfold UniqueIds at h1 ⊢
  cases sh
  case current =>
    have e : allIds (lib.set .current (lib.get .current ++ [b]))
        = List.map (fun bb => bb.id) (lib.current ++ b :: (lib.want ++ lib.finished)) := by
      simp [Library.set, Library.get, allIds]
    have e1 : allIds lib
        = List.map (fun bb => bb.id) (lib.current ++ (lib.want ++ lib.finished)) := by
      simp [allIds]
    rw [e]
    rw [e1] at h1 hx
    exact nodup_map_insert _ _ _ _ h1 hx
  case want =>
    have e : allIds (lib.set .want (lib.get .want ++ [b]))
        = List.map (fun bb => bb.id) ((lib.current ++ lib.want) ++ b :: lib.finished) := by
      simp [Library.set, Library.get, allIds]
    have e1 : allIds lib
        = List.map (fun bb => bb.id) ((lib.current ++ lib.want) ++ lib.finished) := by
      simp [allIds]
    rw [e]
    rw [e1] at h1 hx
    exact nodup_map_insert _ _ _ _ h1 hx
  case finished =>
    have e : allIds (lib.set .finished (lib.get .finished ++ [b]))
        = List.map (fun bb => bb.id) ((lib.current ++ lib.want ++ lib.finished) ++ b :: []) := by
      simp [Library.set, Library.get, allIds]
    have e1 : allIds lib
        = List.map (fun bb => bb.id) ((lib.current ++ lib.want ++ lib.finished) ++ []) := by
      simp [allIds]
    rw [e]
    rw [e1] at h1 hx
    exact nodup_map_insert _ _ _ _ h1 hx

theorem map_id_setDbIdLast (d : Nat) :
    ∀ l : List Book, (setDbIdLast d l).map (fun b => b.id) = l.map (fun b => b.id)
  | [] => rfl
  | [_] => rfl
  | b :: c :: rest => by
    have e : setDbIdLast d (b :: c :: rest) = b :: setDbIdLast d (c :: rest) := rfl
    rw [e, List.map_cons, List.map_cons, map_id_setDbIdLast d (c :: rest)]

theorem allIds_set_setDbIdLast (lib : Library) (sh : ShelfName) (d : Nat) :
    allIds (lib.set sh (setDbIdLast d (lib.get sh))) = allIds lib := by
  cases sh <;>
    simp [Library.set, Library.get, allIds, List.map_append, map_id_setDbIdLast]

@[simp] theorem saveLocally_library (st : MgrState) :
    (saveLocally st).library = st.library := rfl

@[simp] theorem saveLocally_user (st : MgrState) :
    (saveLocally st).user = st.user := rfl

@[simp] theorem saveLocally_stored (st : MgrState) :
    (saveLocally st).stored = .parsedLib st.library := rfl

@[simp] theorem enrich_id (b : Book) (shelf : String) :
    (enrich b shelf).id = b.id := rfl

/-- The state after pushing the enriched entry and persisting. -/
def addLocalState (st : MgrState) (b : Book) (shelf : String) (sh : ShelfName) : MgrState :=
  saveLocally { st with
    library := st.library.set sh (st.library.get sh ++ [enrich b shelf]) }

theorem addBook_dup {st : MgrState} {b : Book} (shelf : String) (r : CreateResult)
    (h : findBook st.library b.id = true) :
    addBook st b shelf r = .ok (st, false) := by
  unfold addBook
  simp [h]

theorem addBook_badShelf {st : MgrState} {b : Book} {shelf : String} (r : CreateResult)
    (hf : findBook st.library b.id = false) (hs : shelfOf? shelf = none) :
    addBook st b shelf r = .error st := by
  unfold addBook
  simp [hf, hs]

theorem addBook_fresh_noUser {st : MgrState} {b : Book} {shelf : String} {sh : ShelfName}
    (r : CreateResult) (hf : findBook st.library b.id = false)
    (hs : shelfOf? shelf = some sh) (hu : st.user = none) :
    addBook st b shelf r = .ok (addLocalState st b shelf sh, false) := by
  unfold addBook addLocalState
  simp [hf, hs, hu]

theorem addBook_fresh_fail {st : MgrState} {b : Book} {shelf : String} {sh : ShelfName}
    {u : Nat} (hf : findBook st.library b.id = false)
    (hs : shelfOf? shelf = some sh) (hu : st.user = some u) :
    addBook st b shelf .fail = .ok (addLocalState st b shelf sh, true) := by
  unfold addBook addLocalState
  simp [hf, hs, hu]

theorem addBook_fresh_ok {st : MgrState} {b : Book} {shelf : String} {sh : ShelfName}
    {u : Nat} (d : Nat) (hf : findBook st.library b.id = false)
    (hs : shelfOf? shelf = some sh) (hu : st.user = some u) :
    addBook st b shelf (.ok d) =
      .ok (saveLocally { addLocalState st b shelf sh with
        library := (addLocalState st b shelf sh).library.set sh
          (setDbIdLast d ((addLocalState st b shelf sh).library.get sh)) }, true) := by
  unfold addBook addLocalState
  simp [hf, hs, hu]

theorem addPost_unique (st : MgrState) (b : Book) (shelf : String) (r : CreateResult)
    (h : UniqueIds st.library) : UniqueIds (addPost st b shelf r).library := by
  unfold addPost
  cases hf : findBook st.library b.id
  · cases hs : shelfOf? shelf with
    | none => rw [addBook_badShelf r hf hs]; exact h
    | some sh =>
      have hpush : UniqueIds (addLocalState st b shelf sh).library := by
        simpa [addLocalState] using
          @unique_push st.library sh (enrich b shelf) h (by simpa using hf)
      cases hu : st.user with
      | none => rw [addBook_fresh_noUser r hf hs hu]; exact hpush
      | some u =>
        cases r with
        | fail => rw [addBook_fresh_fail hf hs hu]; exact hpush
        | ok d =>
          rw [addBook_fresh_ok d hf hs hu]
          simp only [saveLocally_library]
          unfold UniqueIds
          rw [allIds_set_setDbIdLast]
          exact hpush
  · rw [addBook_dup shelf r hf]; exact h

theorem runAdds_unique (cmds : List AddCmd) (st : MgrState)
    (h : UniqueIds st.library) : UniqueIds (runAdds st cmds).library := by
  induction cmds generalizing st with
  | nil => exact h
  | cons c cs ih => exact ih _ (addPost_unique st c.book c.shelf c.remote h)

theorem storeInv_saveLocally (st : MgrState) : StoreInv (saveLocally st) := by
  simp [StoreInv]

theorem hydrate_of_storeInv {st : MgrState} (h : StoreInv st) :
    hydrate st.stored = .ok st.library := by
  rw [h]
  rfl

theorem findBook_push (lib : Library) (sh : ShelfName) (bk : Book) :
    findBook (lib.set sh (lib.get sh ++ [bk])) bk.id = true := by
  rw [findBook_eq_true_iff]
  cases sh <;> simp [Library.set, Library.get, allIds]

theorem removeBook_notFound {st : MgrState} {id : String}
    (h : findBookInShelf st.library id = none) :
    removeBook st id = (st, false) := by
  unfold removeBook
  rw [h]

theorem removeBook_found {st : MgrState} {id : String} {sh : ShelfName} {bk : Book}
    (h : findBookInShelf st.library id = some (sh, bk)) :
    removeBook st id = (saveLocally { st with
      library := st.library.set sh ((st.library.get sh).filter (fun b => b.id != id)) },
      true) := by
  unfold removeBook
  rw [h]

theorem any_id_filter_ne (l : List Book) (id : String) :
    (l.filter (fun b => b.id != id)).any (fun b => b.id == id) = false := by
  apply Bool.eq_false_iff.mpr
  intro ht
  rw [List.any_eq_true] at ht
  obtain ⟨b, hb, hpb⟩ := ht
  rw [List.mem_filter] at hb
  have h1 : b.id ≠ id := by simpa using hb.2
  exact h1 (by simpa using hpb)

theorem any_eq_false_of_find?_eq_none {l : List Book} {p : Book → Bool}
    (h : l.find? p = none) : l.any p = false := by
  apply Bool.eq_false_iff.mpr
  intro ht
  rw [List.any_eq_true] at ht
  obtain ⟨x, hx, hpx⟩ := ht
  rw [List.find?_eq_none] at h
  exact h x hx hpx

theorem find?_eq_none_of_any_eq_false {l : List Book} {p : Book → Bool}
    (h : l.any p = false) : l.find? p = none := by
  rw [List.find?_eq_none]
  intro x hx hpx
  have ht : l.any p = true := List.any_eq_true.mpr ⟨x, hx, hpx⟩
  rw [h] at ht
  cases ht

theorem findBookInShelf_eq_none_of_findBook_eq_false {lib : Library} {id : String}
    (h : findBook lib id = false) : findBookInShelf lib id = none := by
  unfold findBook at h
  simp only [Bool.or_eq_false_iff] at h
  unfold findBookInShelf
  rw [find?_eq_none_of_any_eq_false h.1.1, find?_eq_none_of_any_eq_false h.1.2,
    find?_eq_none_of_any_eq_false h.2]

theorem any_id_eq_false_of_not_mem {l : List Book} {id : String}
    (h : id ∉ List.map (fun b => b.id) l) : l.any (fun b => b.id == id) = false := by
  apply Bool.eq_false_iff.mpr
  intro ht
  rw [List.any_eq_true] at ht
  obtain ⟨b, hb, hpb⟩ := ht
  exact h (List.mem_map.mpr ⟨b, hb, by simpa using hpb⟩)

theorem mem_map_id_of_find?_eq_some {l : List Book} {id : String} {bk : Book}
    (h : l.find? (fun b => b.id == id) = some bk) :
    id ∈ List.map (fun b => b.id) l := by
  have hmem := List.mem_of_find?_eq_some h
  have hid : bk.id = id := by simpa using List.find?_some h
  exact List.mem_map.mpr ⟨bk, hmem, hid⟩

theorem allIds_split (lib : Library) :
    allIds lib = List.map (fun b => b.id) lib.current ++
      (List.map (fun b => b.id) lib.want ++ List.map (fun b => b.id) lib.finished) := by
  simp [allIds]

/-- After removing an id from the shelf that `findBookInShelf` located, the
id is (assuming the uniqueness invariant) nowhere in the library. -/
theorem findBook_after_remove {lib : Library} {id : String} {sh : ShelfName} {bk : Book}
    (hu : UniqueIds lib) (h : findBookInShelf lib id = some (sh, bk)) :
    findBook (lib.set sh ((lib.get sh).filter (fun b => b.id != id))) id = false := by
  have hnd := hu
  rw [UniqueIds, allIds_split] at hnd
  unfold findBookInShelf at h
  cases h1 : lib.current.find? (fun b => b.id == id) with
  | some b1 =>
    rw [h1] at h
    cases h
    have hid : id ∈ List.map (fun b => b.id) lib.current := mem_map_id_of_find?_eq_some h1
    have hdisj := List.disjoint_of_nodup_append hnd
    have hnw : id ∉ List.map (fun b => b.id) lib.want ++ List.map (fun b => b.id) lib.finished :=
      fun hm => hdisj hid hm
    rw [List.mem_append] at hnw
    push_neg at hnw
    simp only [findBook, Library.set, Library.get]
    rw [any_id_filter_ne, any_id_eq_false_of_not_mem hnw.1, any_id_eq_false_of_not_mem hnw.2]
    rfl
  | none =>
    rw [h1] at h
    cases h2 : lib.want.find? (fun b => b.id == id) with
    | some b2 =>
      rw [h2] at h
      cases h
      have hid : id ∈ List.map (fun b => b.id) lib.want := mem_map_id_of_find?_eq_some h2
      have hnd' : (((List.map (fun b => b.id) lib.current) ++ List.map (fun b => b.id) lib.want)
          ++ List.map (fun b => b.id) lib.finished).Nodup := by
        rw [List.append_assoc]
        exact hnd
      have hdisj := List.disjoint_of_nodup_append hnd'
      have hnf : id ∉ List.map (fun b => b.id) lib.finished :=
        fun hm => hdisj (List.mem_append.mpr (Or.inr hid)) hm
      simp only [findBook, Library.set, Library.get]
      rw [any_id_filter_ne, any_eq_false_of_find?_eq_none h1, any_id_eq_false_of_not_mem hnf]
      rfl
    | none =>
      rw [h2] at h
      cases h3 : lib.finished.find? (fun b => b.id == id) with
      | some b3 =>
        rw [h3] at h
        cases h
        simp only [findBook, Library.set, Library.get]
        rw [any_id_filter_ne, any_eq_false_of_find?_eq_none h1,
          any_eq_false_of_find?_eq_none h2]
        rfl
      | none =>
        rw [h3] at h
        cases h

theorem eq_shelfKey_of_shelfOf? {s : String} {sh : ShelfName}
    (h : shelfOf? s = some sh) : s = shelfKey sh := by
  unfold shelfOf? at h
  split_ifs at h with h1 h2 h3 <;> cases h <;> simp_all [shelfKey]

theorem shelfOf?_shelfKey (sh : ShelfName) : shelfOf? (shelfKey sh) = some sh := by
  cases sh <;> simp [shelfOf?, shelfKey]

theorem foldl_syncStep (items : List RemoteItem) (acc : Library) :
    items.foldl syncStep acc =
      { current := acc.current ++
          (items.filter (fun i => shelfOf? i.shelf_type == some .current)).map itemToBook
        want := acc.want ++
          (items.filter (fun i => shelfOf? i.shelf_type == some .want)).map itemToBook
        finished := acc.finished ++
          (items.filter (fun i => shelfOf? i.shelf_type == some .finished)).map itemToBook } := by
  induction items generalizing acc with
  | nil => simp
  | cons i rest ih =>
    rw [List.foldl_cons, ih]
    cases hsi : shelfOf? i.shelf_type with
    | none => simp [syncStep, hsi]
    | some sh => cases sh <;> simp [syncStep, hsi, Library.set, Library.get]

theorem buildBackendLibrary_eq (items : List RemoteItem) :
    buildBackendLibrary items =
      { current := (items.filter (fun i => i.shelf_type == "current")).map itemToBook
        want := (items.filter (fun i => i.shelf_type == "want")).map itemToBook
        finished := (items.filter (fun i => i.shelf_type == "finished")).map itemToBook } := by
  have hp : ∀ (sh : ShelfName) (l : List RemoteItem),
      l.filter (fun i => shelfOf? i.shelf_type == some sh) =
        l.filter (fun i => i.shelf_type == shelfKey sh) := by
    intro sh l
    apply List.filter_congr
    intro i _
    by_cases h : i.shelf_type = shelfKey sh
    · rw [h, shelfOf?_shelfKey]
      simp
    · have h1 : (i.shelf_type == shelfKey sh) = false := by simpa using h
      have h2 : (shelfOf? i.shelf_type == some sh) = false := by
        apply Bool.eq_false_iff.mpr
        intro hc
        exact h (eq_shelfKey_of_shelfOf? (by simpa using hc))
      rw [h1, h2]
  unfold buildBackendLibrary
  rw [foldl_syncStep, hp .current, hp .want, hp .finished]
  simp [emptyLibrary, shelfKey]

theorem filter_length_partition (items : List RemoteItem)
    (hrec : ∀ i ∈ items, (shelfOf? i.shelf_type).isSome) :
    (items.filter (fun i => i.shelf_type == "current")).length +
    (items.filter (fun i => i.shelf_type == "want")).length +
    (items.filter (fun i => i.shelf_type == "finished")).length = items.length := by
  induction items with
  | nil => rfl
  | cons i rest ih =>
    have hi := hrec i (by simp)
    have ih' := ih (fun j hj => hrec j (by simp [hj]))
    rcases ho : shelfOf? i.shelf_type with _ | sh
    · rw [ho] at hi
      cases hi
    · have hkey := eq_shelfKey_of_shelfOf? ho
      cases sh <;>
        simp only [List.filter_cons, hkey, shelfKey, List.length_cons, beq_iff_eq,
          if_true, if_false, reduceIte, String.reduceEq, decide_True, decide_False] <;>
        omega

theorem sync_replace {st : MgrState} {u : Nat} {items : List RemoteItem}
    (hu : st.user = some u) (hne : items ≠ []) :
    syncWithBackend st (.ok items) =
      saveLocally { st with library := buildBackendLibrary items } := by
  unfold syncWithBackend
  rw [hu]
  simp [List.length_pos.mpr hne]

theorem addPost_storeInv (st : MgrState) (b : Book) (shelf : String) (r : CreateResult)
    (hinv : StoreInv st) : StoreInv (addPost st b shelf r) := by
  unfold addPost
  cases hf : findBook st.library b.id
  · cases hs : shelfOf? shelf with
    | none => rw [addBook_badShelf r hf hs]; exact hinv
    | some sh =>
      cases hu : st.user with
      | none => rw [addBook_fresh_noUser r hf hs hu]; exact storeInv_saveLocally _
      | some u =>
        cases r with
        | fail => rw [addBook_fresh_fail hf hs hu]; exact storeInv_saveLocally _
        | ok d => rw [addBook_fresh_ok d hf hs hu]; exact storeInv_saveLocally _
  · rw [addBook_dup shelf r hf]; exact hinv

theorem findBook_addLocalState (st : MgrState) (b : Book) (shelf : String) (sh : ShelfName) :
    findBook (addLocalState st b shelf sh).library b.id = true := by
  have h := findBook_push st.library sh (enrich b shelf)
  rw [enrich_id] at h
  simpa [addLocalState] using h

theorem addPost_mutation_present (st : MgrState) (b : Book) (shelf : String) (r : CreateResult)
    (hf : findBook st.library b.id = false) (sh : ShelfName) (hs : shelfOf? shelf = some sh) :
    findBook (addPost st b shelf r).library b.id = true := by
  unfold addPost
  cases hu : st.user with
  | none =>
    rw [addBook_fresh_noUser r hf hs hu]
    exact findBook_addLocalState st b shelf sh
  | some u =>
    cases r with
    | fail =>
      rw [addBook_fresh_fail hf hs hu]
      exact findBook_addLocalState st b shelf sh
    | ok d =>
      rw [addBook_fresh_ok d hf hs hu]
      simp only [saveLocally_library]
      rw [findBook_eq_true_iff]
      unfold UniqueIds at *
      rw [allIds_set_setDbIdLast]
      rw [← findBook_eq_true_iff]
      exact findBook_addLocalState st b shelf sh

theorem removeBook_storeInv (st : MgrState) (id : String) (hinv : StoreInv st) :
    StoreInv (removeBook st id).1 := by
  cases h : findBookInShelf st.library id with
  | none => rw [removeBook_notFound h]; exact hinv
  | some p =>
    obtain ⟨sh, bk⟩ := p
    rw [removeBook_found h]
    exact storeInv_saveLocally _

theorem sliderInput_storeInv {st : MgrState} {id : String} {raw : Int} {st' : MgrState}
    (hinv : StoreInv st) (h : sliderInput st id raw = .updated st') : StoreInv st' := by
  unfold sliderInput at h
  rw [hinv] at h
  cases h
  rfl

/-! ### Claims -/

/-- C1: for every sequence of `addBook` calls starting from the empty shelf
state, each call naming a recognized shelf, the resulting shelf state never
has an external id present in two different shelves nor twice within one
shelf (`addBook` enforces this by consulting `findBook` before mutating). -/
theorem addBook_sequences_preserve_uniqueness
    (st : MgrState) (cmds : List AddCmd)
    (h0 : st.library = emptyLibrary)
    (hrec : ∀ c ∈ cmds, (shelfOf? c.shelf).isSome) :
    UniqueIds (runAdds st cmds).library := by
  apply runAdds_unique
  rw [h0]
  simp [UniqueIds, allIds, emptyLibrary]

/-- Witness for C1 at a concrete three-call sequence (including a duplicate
re-add of `b1`). -/
theorem addBook_sequences_preserve_uniqueness_witness :
    UniqueIds (runAdds wState0 wCmds).library :=
  addBook_sequences_preserve_uniqueness wState0 wCmds rfl (by decide)

/-- C2: when a session exists and the fetch succeeds with a non-empty list
of records that all name recognized shelves, the post-sync shelf state holds
exactly those records grouped by `shelf_type` (local-only entries are
discarded, since the result depends only on the remote list), their total
count equals the remote count, and the replacement is persisted to the local
store. -/
theorem sync_nonempty_replaces
    (st : MgrState) (u : Nat) (items : List RemoteItem)
    (hu : st.user = some u) (hne : items ≠ [])
    (hrec : ∀ i ∈ items, (shelfOf? i.shelf_type).isSome) :
    (syncWithBackend st (.ok items)).library.current
        = (items.filter (fun i => i.shelf_type == "current")).map itemToBook ∧
    (syncWithBackend st (.ok items)).library.want
        = (items.filter (fun i => i.shelf_type == "want")).map itemToBook ∧
    (syncWithBackend st (.ok items)).library.finished
        = (items.filter (fun i => i.shelf_type == "finished")).map itemToBook ∧
    (syncWithBackend st (.ok items)).library.current.length
      + (syncWithBackend st (.ok items)).library.want.length
      + (syncWithBackend st (.ok items)).library.finished.length = items.length ∧
    (syncWithBackend st (.ok items)).stored
        = .parsedLib (syncWithBackend st (.ok items)).library := by
  rw [sync_replace hu hne]
  refine ⟨?_, ?_, ?_, ?_, ?_⟩ <;>
    simp [buildBackendLibrary_eq, filter_length_partition items hrec]

/-- Witness for C2 at two concrete recognized records. -/
theorem sync_nonempty_replaces_witness :
    (syncWithBackend wStateB1U (.ok wItems)).library.current.length
      + (syncWithBackend wStateB1U (.ok wItems)).library.want.length
      + (syncWithBackend wStateB1U (.ok wItems)).library.finished.length
      = wItems.length ∧
    (syncWithBackend wStateB1U (.ok wItems)).library.current
      = (wItems.filter (fun i => i.shelf_type == "current")).map itemToBook :=
  ⟨(sync_nonempty_replaces wStateB1U 7 wItems rfl (by decide) (by decide)).2.2.2.1,
   (sync_nonempty_replaces wStateB1U 7 wItems rfl (by decide) (by decide)).1⟩

/-- C3: `syncWithBackend` leaves the shelf state and its local-store
projection completely unchanged when no session exists, when the fetch fails
(transport error or non-success status), and when the fetch succeeds with an
empty remote list; the function is total (every remote failure is swallowed
by its `try`/`catch`), so no error is surfaced to the caller in any of these
cases. -/
theorem sync_noop_cases (st : MgrState) :
    (st.user = none → ∀ f : FetchResult, syncWithBackend st f = st) ∧
    syncWithBackend st .failed = st ∧
    syncWithBackend st (.ok []) = st := by
  refine ⟨?_, ?_, ?_⟩
  · intro h f
    unfold syncWithBackend
    rw [h]
  · unfold syncWithBackend
    cases st.user <;> rfl
  · unfold syncWithBackend
    cases st.user <;> simp

/-- Witness for C3 at concrete states with and without a session. -/
theorem sync_noop_cases_witness :
    syncWithBackend wStateB1U .failed = wStateB1U ∧
    syncWithBackend wStateB1U (.ok []) = wStateB1U ∧
    syncWithBackend wStateB1 .failed = wStateB1 :=
  ⟨(sync_noop_cases wStateB1U).2.1, (sync_noop_cases wStateB1U).2.2,
   (sync_noop_cases wStateB1).1 rfl .failed⟩

/-- C4: calling `addBook` with an entry whose external id already exists in
some shelf is a silent no-op: the returned state is exactly the pre-call
state (in-memory shelves and persisted copy included), `.ok` means no error
is raised, and the `false` flag records that no remote create request was
issued — regardless of the would-be remote outcome. -/
theorem duplicate_add_noop (st : MgrState) (b : Book) (shelf : String) (r : CreateResult)
    (h : findBook st.library b.id = true) :
    addBook st b shelf r = .ok (st, false) :=
  addBook_dup shelf r h

/-- Witness for C4: re-adding `b1` to a state already holding it. -/
theorem duplicate_add_noop_witness :
    addBook wStateB1 wBook1 "want" .fail = .ok (wStateB1, false) :=
  duplicate_add_noop wStateB1 wBook1 "want" .fail (by decide)

/-- C5: starting from a state whose local store mirrors the in-memory
shelves, after `addBook` (for every remote outcome, including failure),
`removeBook`, or the progress handler returns, the local store again equals
the in-memory shelf state and re-hydrating a fresh manager from it
reproduces exactly those shelves; moreover a fresh add is present in the
post state even when the remote create fails — it is never rolled back. -/
theorem local_write_before_return
    (st : MgrState) (b : Book) (shelf : String) (r : CreateResult) (id : String) (raw : Int)
    (hinv : StoreInv st) :
    (StoreInv (addPost st b shelf r) ∧
      hydrate (addPost st b shelf r).stored = .ok (addPost st b shelf r).library) ∧
    (findBook st.library b.id = false → ∀ sh, shelfOf? shelf = some sh →
      findBook (addPost st b shelf r).library b.id = true) ∧
    (StoreInv (removeBook st id).1 ∧
      hydrate (removeBook st id).1.stored = .ok (removeBook st id).1.library) ∧
    (∀ st', sliderInput st id raw = .updated st' →
      StoreInv st' ∧ hydrate st'.stored = .ok st'.library) := by
  refine ⟨⟨addPost_storeInv st b shelf r hinv,
      hydrate_of_storeInv (addPost_storeInv st b shelf r hinv)⟩,
    fun hf sh hs => addPost_mutation_present st b shelf r hf sh hs,
    ⟨removeBook_storeInv st id hinv,
      hydrate_of_storeInv (removeBook_storeInv st id hinv)⟩,
    fun st' h => ⟨sliderInput_storeInv hinv h,
      hydrate_of_storeInv (sliderInput_storeInv hinv h)⟩⟩

/-- Witness for C5: a fresh add with a failing remote call keeps store and
memory in lockstep and the mutation visible. -/
theorem local_write_before_return_witness :
    StoreInv (addPost wStateB1 wBook2 "want" .fail) ∧
    findBook (addPost wStateB1 wBook2 "want" .fail).library wBook2.id = true :=
  ⟨(local_write_before_return wStateB1 wBook2 "want" .fail "b1" 0 rfl).1.1,
   (local_write_before_return wStateB1 wBook2 "want" .fail "b1" 0 rfl).2.1
     (by decide) .want (by decide)⟩

/-- C6 counterexample: the claim says absent or malformed stored data is
silently discarded, but the constructor's `JSON.parse` call is not wrapped
in any `try`/`catch`, so stored text that is not valid JSON makes hydration
throw a `SyntaxError` instead of returning the empty shelves. -/
theorem hydration_malformed_throws :
    hydrate StoredData.malformed = HydrateResult.throws ∧
    HydrateResult.throws ≠ HydrateResult.ok emptyLibrary :=
  ⟨rfl, by decide⟩

/-- C6 amended: hydration yields the three empty shelves, raising no error,
when the stored data is absent (or is valid JSON denoting a falsy value),
and a stored well-formed library is loaded as-is; but stored text that is
not valid JSON causes the constructor to raise a parse error. -/
theorem hydration_behavior :
    hydrate StoredData.absent = HydrateResult.ok emptyLibrary ∧
    hydrate StoredData.falsy = HydrateResult.ok emptyLibrary ∧
    hydrate StoredData.malformed = HydrateResult.throws ∧
    ∀ lib : Library, hydrate (StoredData.parsedLib lib) = HydrateResult.ok lib :=
  ⟨rfl, rfl, rfl, fun _ => rfl⟩

/-- C7: `removeBook` returns `false` and leaves the state untouched (raising
no error) when the id is on no shelf; otherwise it filters the entry out of
the shelf found to hold it, persists the result, and returns `true`, after
which (given the uniqueness invariant) `findBook` no longer sees the id and
a second `removeBook` of the same id returns `false`. -/
theorem removeBook_spec (st : MgrState) (id : String) (hu : UniqueIds st.library) :
    (findBookInShelf st.library id = none → removeBook st id = (st, false)) ∧
    (∀ sh bk, findBookInShelf st.library id = some (sh, bk) →
      removeBook st id = (saveLocally { st with
        library := st.library.set sh
          ((st.library.get sh).filter (fun b => b.id != id)) }, true) ∧
      findBook (removeBook st id).1.library id = false ∧
      removeBook (removeBook st id).1 id = ((removeBook st id).1, false)) := by
  constructor
  · exact removeBook_notFound
  · intro sh bk h
    have hrm := removeBook_found h
    have hfb : findBook (removeBook st id).1.library id = false := by
      rw [hrm]
      simp only [saveLocally_library]
      exact findBook_after_remove hu h
    exact ⟨hrm, hfb,
      removeBook_notFound (findBookInShelf_eq_none_of_findBook_eq_false hfb)⟩

/-- Witness for C7: removing `b1` from a state holding it, then removing it
again. -/
theorem removeBook_spec_witness :
    findBook (removeBook wStateB1 "b1").1.library "b1" = false ∧
    removeBook (removeBook wStateB1 "b1").1 "b1" = ((removeBook wStateB1 "b1").1, false) :=
  ⟨((removeBook_spec wStateB1 "b1" (by decide)).2 .current wBook1 (by decide)).2.1,
   ((removeBook_spec wStateB1 "b1" (by decide)).2 .current wBook1 (by decide)).2.2⟩

/-- C8: the progress slider exists only on cards rendered for the
`current` (in-progress) shelf, and the value the handler stores is the
DOM-clamped slider value, always within `[0, 100]` (an attempted 150 stores
100, an attempted -10 stores 0), with the clamped value written both to the
in-memory library and to the local store. -/
theorem progress_clamp_spec (st : MgrState) (lib : Library) (b : Book) (rest : List Book)
    (id : String) (raw : Int)
    (hs : st.stored = .parsedLib lib) (hcur : lib.current = b :: rest) (hid : b.id = id) :
    (rendersProgressSlider (some "current") = true ∧
      ∀ s, rendersProgressSlider s = true → s = some "current") ∧
    sliderInput st id raw = .updated { st with
      library := { lib with current := { b with progress := some (rangeClamp raw) } :: rest }
      stored := .parsedLib
        { lib with current := { b with progress := some (rangeClamp raw) } :: rest } } ∧
    0 ≤ rangeClamp raw ∧ rangeClamp raw ≤ 100 ∧
    rangeClamp 150 = 100 ∧ rangeClamp (-10) = 0 := by
  subst hid
  refine ⟨⟨rfl, ?_⟩, ?_, ?_, ?_, by decide, by decide⟩
  · intro s h
    simpa [rendersProgressSlider] using h
  · unfold sliderInput
    rw [hs]
    simp [setProgressFirstShelf, hcur, setFirstProgress]
  · unfold rangeClamp
    omega
  · unfold rangeClamp
    omega

/-- Witness for C8: sliding to 150 stores 100 and sliding to -10 stores 0 on
a concrete one-book state. -/
theorem progress_clamp_spec_witness :
    sliderInput wStateB1 "b1" 150 = .updated
      { library := { current := [{ wBook1 with progress := some 100 }] }
        stored := .parsedLib { current := [{ wBook1 with progress := some 100 }] }
        user := none } ∧
    sliderInput wStateB1 "b1" (-10) = .updated
      { library := { current := [{ wBook1 with progress := some 0 }] }
        stored := .parsedLib { current := [{ wBook1 with progress := some 0 }] }
        user := none } := by
  constructor
  · have h := (progress_clamp_spec wStateB1 wLibB1 wBook1 [] "b1" 150 rfl rfl rfl).2.1
    simpa using h
  · have h := (progress_clamp_spec wStateB1 wLibB1 wBook1 [] "b1" (-10) rfl rfl rfl).2.1
    simpa using h

/-- C9: `syncWithBackend` performs no deduplication: fetching two remote
records with the same `google_books_id` and recognized shelf types places
both into the rebuilt shelves and persists them, producing a shelf state in
which one external id appears twice (so the global uniqueness invariant,
preserved by `addBook`, is not preserved by sync). -/
theorem sync_no_dedup :
    (syncWithBackend dupState (.ok [dupA, dupB])).library.current
        = [itemToBook dupA, itemToBook dupB] ∧
    (itemToBook dupA).id = "b1" ∧ (itemToBook dupB).id = "b1" ∧
    ¬ UniqueIds (syncWithBackend dupState (.ok [dupA, dupB])).library ∧
    (syncWithBackend dupState (.ok [dupA, dupB])).stored
        = .parsedLib (syncWithBackend dupState (.ok [dupA, dupB])).library := by
  refine ⟨by decide, rfl, rfl, by decide, by decide⟩

/-- C10: `addBook` with a shelf name outside the three recognized keys (when
the entry is not already present, so the duplicate guard does not return
first) evaluates `this.library[shelf].push` on `undefined` and raises a
`TypeError`; the `.error` payload is the state at the throw, i.e. the
recognized shelves are unchanged and nothing was persisted. -/
theorem addBook_unrecognized_shelf_throws (st : MgrState) (b : Book) (shelf : String)
    (r : CreateResult) (hs : shelfOf? shelf = none)
    (hf : findBook st.library b.id = false) :
    addBook st b shelf r = .error st :=
  addBook_badShelf r hf hs

/-- Witness for C10: adding a fresh book to the unrecognized shelf
`favorites` throws, leaving the state unchanged. -/
theorem addBook_unrecognized_shelf_throws_witness :
    addBook wState0 wBook1 "favorites" .fail = .error wState0 :=
  addBook_unrecognized_shelf_throws wState0 wBook1 "favorites" .fail
    (by decide) (by decide)

end BiblioDrift
